import Mathlib

/-!
Verification of the NJ Transit departure-board scraper (`scraper.py`).

The development shallowly embeds the scraper's logic:
* Python string helpers (`lower`, `strip`, substring test, `replace`) become
  executable Lean functions on `String`;
* the BeautifulSoup query results for one departure entry become the fields of
  an `Item` (each `find` result is an `Option`);
* `parse_occupancy`, the per-entry processing inside `scrape_departures`, the
  service-day bucketing of `get_current_file_date` and the CSV writing of
  `save_to_csv` are translated function by function;
* the filesystem touched by `save_to_csv` is an explicit `FileSys` value.
-/

namespace NJT

/-- Characters considered whitespace by Python's `str.strip` (ASCII subset). -/
def pyIsSpace (c : Char) : Bool :=
  c = ' ' ∨ c = '\t' ∨ c = '\n' ∨ c = '\r'

/-- Models Python `str.strip()`: drop leading and trailing whitespace. -/
def pyStrip (s : String) : String :=
  ⟨(s.toList.dropWhile pyIsSpace).reverse.dropWhile pyIsSpace |>.reverse⟩

/-- Models Python `str.lower()` for the ASCII strings the scraper handles. -/
def pyLower (s : String) : String :=
  ⟨s.toList.map Char.toLower⟩

/-- Does `needle` occur at the head of `hay`? Helper for the substring test. -/
def headMatch : List Char → List Char → Bool
  | [], _ => true
  | _ :: _, [] => false
  | a :: as, b :: bs => a = b && headMatch as bs

/-- Does `needle` occur somewhere in `hay`? Helper for the substring test. -/
def subMatch (needle : List Char) : List Char → Bool
  | [] => needle.isEmpty
  | c :: cs => headMatch needle (c :: cs) || subMatch needle cs

/-- Models the Python expression `needle in hay` on strings. -/
def pyIn (needle hay : String) : Bool :=
  subMatch needle.toList hay.toList

/-- Fuelled scan removing every occurrence of `pat`; the fuel is an upper
bound on the scanned length, so it never runs out in `pyReplace`. -/
def replaceAux (pat : List Char) : Nat → List Char → List Char
  | 0, l => l
  | _ + 1, [] => []
  | fuel + 1, c :: cs =>
    if !pat.isEmpty && headMatch pat (c :: cs) then
      replaceAux pat fuel (cs.drop (pat.length - 1))
    else c :: replaceAux pat fuel cs

/-- Models the Python expression `s.replace(pat, '')`: remove every
(non-overlapping, leftmost-first) occurrence of `pat`. -/
def pyReplace (s pat : String) : String :=
  if pat.isEmpty then s else ⟨replaceAux pat.toList (s.toList.length + 1) s.toList⟩

/-- Models Python truthiness of the scraper's `destination_filter` value
(`None` and the empty string are falsy). -/
def filtTruthy : Option String → Bool
  | none => false
  | some s => !(s == "")

/-- One occupancy indicator (`li` with `data-v-8927eb98`); `style` is the
value of its style attribute, `""` when absent (`dot.get('style', '')`). -/
structure Dot where
  style : String
deriving DecidableEq, Repr

/-- One car section (`li` with `data-v-b5fd45da`) with the indicator elements
found inside it. -/
structure OccSection where
  dots : List Dot
deriving DecidableEq, Repr

/-- The BeautifulSoup query results for one departure entry (`li.border` with
`data-v-403a649a`).  Each field is the result of the corresponding `find`
call in `scrape_departures` / `parse_occupancy`; `none` means the element or
text node is absent. -/
structure Item where
  destination : Option String
  line : Option String
  trainText : Option String
  timeElement : Option String
  statusElement : Option String
  trackText : Option String
  occupancy_section : Option (List OccSection)
deriving DecidableEq, Repr

/-- One station page: the list of departure-entry elements found by
`soup.find_all('li', {'data-v-403a649a': True, 'class': 'border'})`. -/
structure Page where
  entries : List Item
deriving DecidableEq, Repr

/-- The dictionary built by `parse_occupancy`. -/
structure OccupancyInfo where
  total_sections : Nat
  light : Nat
  medium : Nat
  heavy : Nat
  no_data : Nat
deriving DecidableEq, Repr

/-- The classification step of `parse_occupancy`'s inner loop: match the
style attribute against the three reference colors, `no_data` otherwise. -/
def classifyStep (acc : OccupancyInfo) (dot : Dot) : OccupancyInfo :=
  if pyIn "background-color: rgb(11, 102, 35)" dot.style then
    { acc with light := acc.light + 1 }
  else if pyIn "background-color: rgb(255, 193, 7)" dot.style then
    { acc with medium := acc.medium + 1 }
  else if pyIn "background-color: rgb(220, 53, 69)" dot.style then
    { acc with heavy := acc.heavy + 1 }
  else
    { acc with no_data := acc.no_data + 1 }

/-- Translation of `NJTransitScraper.parse_occupancy`: zero summary when the
occupancy `ol` is absent; otherwise `total_sections` is the number of section
elements and every indicator inside every section is classified by color. -/
def parse_occupancy (item : Item) : OccupancyInfo :=
  match item.occupancy_section with
  | none => ⟨0, 0, 0, 0, 0⟩
  | some sections =>
    sections.foldl (fun acc sec => sec.dots.foldl classifyStep acc)
      { total_sections := sections.length, light := 0, medium := 0,
        heavy := 0, no_data := 0 }

/-- One row of the accumulated departure data (the dict appended to
`departures` in `scrape_departures`). -/
structure DepartureRecord where
  timestamp : String
  station : String
  destination : String
  line : String
  train_number : String
  departure_time : String
  status : String
  track : String
  car_sections : Nat
  occupancy_light : Nat
  occupancy_medium : Nat
  occupancy_heavy : Nat
  occupancy_no_data : Nat
deriving DecidableEq, Repr

/-- Outcome of the per-entry `try` block in `scrape_departures`: an exception
was raised and caught (`errored`), the destination filter rejected the entry
(`filtered`, the `continue`), or a record was appended. -/
inductive EntryResult where
  | errored
  | filtered
  | record (r : DepartureRecord)
deriving DecidableEq, Repr

/-- Label-scan extraction shared by the train-number and track fields:
`text.strip().replace(marker, '').strip() if text else ''` (a found text node
is truthy exactly when non-empty). -/
def extractLabeled (marker : String) : Option String → String
  | none => ""
  | some t => if t.isEmpty then "" else pyStrip (pyReplace (pyStrip t) marker)

/-- Element-text extraction shared by the time and status fields:
`element.text.strip() if element else ''`. -/
def optText : Option String → String
  | none => ""
  | some s => pyStrip s

/-- The dict literal appended to `departures` for one retained entry. -/
def buildRecord (station ts : String) (item : Item)
    (destination line : String) : DepartureRecord :=
  let occupancy := parse_occupancy item
  { timestamp := ts, station := station, destination := destination,
    line := line,
    train_number := extractLabeled "Train" item.trainText,
    departure_time := optText item.timeElement,
    status := optText item.statusElement,
    track := extractLabeled "Track" item.trackText,
    car_sections := occupancy.total_sections,
    occupancy_light := occupancy.light,
    occupancy_medium := occupancy.medium,
    occupancy_heavy := occupancy.heavy,
    occupancy_no_data := occupancy.no_data }

/-- Translation of the body of the per-entry loop of
`NJTransitScraper.scrape_departures`.  Accessing `.text` of a failed `find`
raises `AttributeError` in Python, hence `errored` when `destination` or
`line` is `none`; the train / time / status / track extractions all guard
against absence and default to `""`. -/
def process_item (filt : Option String) (station ts : String) (item : Item) :
    EntryResult :=
  match item.destination with
  | none => .errored
  | some destText =>
    let destination := pyStrip destText
    if filtTruthy filt &&
        !(pyIn (pyLower (filt.getD "")) (pyLower destination)) then
      .filtered
    else
      match item.line with
      | none => .errored
      | some lineText =>
        .record (buildRecord station ts item destination (pyStrip lineText))

/-- Keep only the entries whose processing appended a record. -/
def keepRecord : EntryResult → Option DepartureRecord
  | .record r => some r
  | _ => none

/-- Translation of `NJTransitScraper.scrape_departures`.  The page fetch
(`requests.get` + `raise_for_status` + soup construction) is modelled by the
`Except` argument; the outer `except` returns `[]`, the per-entry `except` /
`continue` drop the entry. -/
def scrape_departures (filt : Option String) (fetched : Except String Page)
    (station ts : String) : List DepartureRecord :=
  match fetched with
  | .error _ => []
  | .ok page =>
    page.entries.filterMap fun item => keepRecord (process_item filt station ts item)

/-- A calendar date, as held by a Python `datetime` value. -/
structure Date where
  year : Nat
  month : Nat
  day : Nat
deriving DecidableEq, Repr

/-- Gregorian leap-year rule used by Python's `datetime`. -/
def isLeap (y : Nat) : Bool :=
  (y % 4 = 0 && y % 100 ≠ 0) || y % 400 = 0

/-- Number of days in month `m` of year `y` (months numbered 1..12). -/
def daysInMonth (y m : Nat) : Nat :=
  if m = 2 then (if isLeap y then 29 else 28)
  else if m = 4 ∨ m = 6 ∨ m = 9 ∨ m = 11 then 30
  else 31

/-- A date is valid when Python's `datetime` would accept it. -/
def validDate (d : Date) : Prop :=
  1 ≤ d.year ∧ 1 ≤ d.month ∧ d.month ≤ 12 ∧ 1 ≤ d.day ∧
    d.day ≤ daysInMonth d.year d.month

/-- Models `datetime - timedelta(days=1)` restricted to the date part:
step back one day in the proleptic Gregorian calendar. -/
def subOneDay (d : Date) : Date :=
  if 1 < d.day then ⟨d.year, d.month, d.day - 1⟩
  else if 1 < d.month then ⟨d.year, d.month - 1, daysInMonth d.year (d.month - 1)⟩
  else ⟨d.year - 1, 12, 31⟩

/-- Decimal digit characters for number formatting. -/
def digitChar : Nat → Char
  | 0 => '0' | 1 => '1' | 2 => '2' | 3 => '3' | 4 => '4'
  | 5 => '5' | 6 => '6' | 7 => '7' | 8 => '8' | 9 => '9'
  | _ => '*'

/-- Fuelled accumulator loop producing the decimal digits of `n`. -/
def natDigitsAux : Nat → Nat → List Char → List Char
  | 0, _, acc => acc
  | fuel + 1, n, acc =>
    if n < 10 then digitChar n :: acc
    else natDigitsAux fuel (n / 10) (digitChar (n % 10) :: acc)

/-- Decimal representation of a natural number. -/
def natStr (n : Nat) : String :=
  ⟨natDigitsAux (n + 1) n []⟩

/-- Two-digit zero padding, as in `strftime('%m')` / `strftime('%d')`. -/
def pad2 (n : Nat) : String :=
  if n < 10 then "0" ++ natStr n else natStr n

/-- Four-digit zero padding, as in `strftime('%Y')` for ordinary years. -/
def pad4 (n : Nat) : String :=
  if n < 10 then "000" ++ natStr n
  else if n < 100 then "00" ++ natStr n
  else if n < 1000 then "0" ++ natStr n
  else natStr n

/-- Models `strftime('%Y-%m-%d')`. -/
def formatDate (d : Date) : String :=
  pad4 d.year ++ "-" ++ pad2 d.month ++ "-" ++ pad2 d.day

/-- A local capture moment as read from `datetime.datetime.now(...)`. -/
structure LocalTime where
  year : Nat
  month : Nat
  day : Nat
  hour : Nat
  minute : Nat
deriving DecidableEq, Repr

/-- Date part of a local time. -/
def LocalTime.date (t : LocalTime) : Date :=
  ⟨t.year, t.month, t.day⟩

/-- Splits a character list at its LAST occurrence of `sep`, when present. -/
def splitLast (sep : Char) : List Char → Option (List Char × List Char)
  | [] => none
  | c :: cs =>
    match splitLast sep cs with
    | some (a, b) => some (c :: a, b)
    | none => if c = sep then some ([], cs) else none

/-- Models `os.path.dirname` for the slash-separated paths the scraper builds. -/
def pyDirname (p : String) : String :=
  match splitLast '/' p.toList with
  | some (a, _) => ⟨a⟩
  | none => ""

/-- Models `os.path.basename` for the slash-separated paths the scraper builds. -/
def pyBasename (p : String) : String :=
  match splitLast '/' p.toList with
  | some (_, b) => ⟨b⟩
  | none => p

/-- Models `os.path.join` for the relative, slash-free components the scraper
joins. -/
def pyPathJoin (a b : String) : String :=
  if a.isEmpty then b else a ++ "/" ++ b

/-- Translation of `NJTransitScraper.get_current_file_date`: before 04:00
local the previous day is used, and the result is
`os.path.join('departures', date.strftime('%Y-%m-%d'))`. -/
def get_current_file_date (now : LocalTime) : String :=
  let d := if now.hour < 4 then subOneDay now.date else now.date
  pyPathJoin "departures" (formatDate d)

/-- The bucket date chosen inside `get_current_file_date`. -/
def serviceDate (now : LocalTime) : Date :=
  if now.hour < 4 then subOneDay now.date else now.date

/-- One row of the tabular output file, kept as a list of cells (pandas
serialises each dict in column order). -/
abbrev Row := List String

/-- The header row `pandas.DataFrame.to_csv` emits for the departure dicts:
the dict keys in insertion order. -/
def headerRow : Row :=
  ["timestamp", "station", "destination", "line", "train_number",
   "departure_time", "status", "track", "car_sections", "occupancy_light",
   "occupancy_medium", "occupancy_heavy", "occupancy_no_data"]

/-- The data row emitted for one departure record, in the same column order. -/
def recordRow (r : DepartureRecord) : Row :=
  [r.timestamp, r.station, r.destination, r.line, r.train_number,
   r.departure_time, r.status, r.track, natStr r.car_sections,
   natStr r.occupancy_light, natStr r.occupancy_medium,
   natStr r.occupancy_heavy, natStr r.occupancy_no_data]

/-- The filesystem slice `save_to_csv` touches: a set of created directories
and a map from path to tabular file content. -/
structure FileSys where
  dirs : List String
  files : List (String × List Row)
deriving DecidableEq, Repr

/-- Models `os.path.exists` plus reading the file content. -/
def lookupFile (fs : FileSys) (p : String) : Option (List Row) :=
  match fs.files.find? (fun kv => kv.1 == p) with
  | some kv => some kv.2
  | none => none

/-- Models `os.makedirs(directory, exist_ok=True)`. -/
def mkdirs (d : String) (fs : FileSys) : FileSys :=
  if d ∈ fs.dirs then fs else { fs with dirs := d :: fs.dirs }

/-- Stores content at a path, shadowing any previous content. -/
def writeFile (p : String) (c : List Row) (fs : FileSys) : FileSys :=
  { fs with files := (p, c) :: fs.files }

/-- The output path computed inside `save_to_csv` from the dated path of
`get_current_file_date`. -/
def save_filename (t : LocalTime) : String :=
  let date := get_current_file_date t
  pyPathJoin (pyDirname date) ("departures_" ++ pyBasename date ++ ".csv")

/-- Translation of `NJTransitScraper.save_to_csv`: no I/O on an empty list;
otherwise ensure the directory exists and write the rows, with the header
only when the file does not already exist. -/
def save_to_csv (t : LocalTime) (departures : List DepartureRecord)
    (fs : FileSys) : FileSys :=
  if departures.isEmpty then fs
  else
    let date := get_current_file_date t
    let directory := pyDirname date
    let filename := pyPathJoin directory ("departures_" ++ pyBasename date ++ ".csv")
    let fs1 := mkdirs directory fs
    match lookupFile fs1 filename with
    | some content => writeFile filename (content ++ departures.map recordRow) fs1
    | none => writeFile filename (headerRow :: departures.map recordRow) fs1

/-- Number of leap years in `1..y` of the proleptic Gregorian calendar. -/
def leapCount (y : Nat) : Nat :=
  y / 4 - y / 100 + y / 400

/-- Number of days strictly before January 1 of year `y` (year 1 is day 1). -/
def daysBeforeYear (y : Nat) : Nat :=
  365 * (y - 1) + leapCount (y - 1)

/-- Number of days of year `y` strictly before month `m`. -/
def daysBeforeMonth : Nat → Nat → Nat
  | _, 0 => 0
  | _, 1 => 0
  | y, m + 1 => daysBeforeMonth y m + daysInMonth y (m + 1 - 1)

/-- Absolute day number of a date; consecutive calendar dates get
consecutive numbers, which makes "previous calendar date" precise. -/
def toDayNo (d : Date) : Nat :=
  daysBeforeYear d.year + daysBeforeMonth d.year d.month + d.day

/-- A departure entry with every queried element present and a single
occupancy section holding one lightly-loaded indicator. -/
def itemNewark : Item :=
  { destination := some "Newark Penn Station", line := some "NEC",
    trainText := some " Train 3850 ", timeElement := some "10:45 AM",
    statusElement := some "On Time", trackText := some "Track 2",
    occupancy_section :=
      some [⟨[⟨"background-color: rgb(11, 102, 35);"⟩]⟩] }

/-- A departure entry bound for Hoboken, used for the filter examples. -/
def itemHoboken : Item :=
  { destination := some "Hoboken", line := some "MOBO",
    trainText := some "Train 6212", timeElement := some "11:02 AM",
    statusElement := some "All Aboard", trackText := some "Track 5",
    occupancy_section := some [⟨[⟨"background-color: rgb(220, 53, 69);"⟩]⟩] }

/-- A departure entry whose destination `strong` element is absent, so its
extraction raises and the entry is skipped. -/
def itemNoDest : Item :=
  { destination := none, line := some "NEC", trainText := none,
    timeElement := none, statusElement := none, trackText := none,
    occupancy_section := none }

/-- A departure entry with no occupancy list structure at all. -/
def itemNoOcc : Item :=
  { destination := some "Newark Penn Station", line := some "NEC",
    trainText := some "Train 3852", timeElement := some "11:45 AM",
    statusElement := some "On Time", trackText := none,
    occupancy_section := none }

/-- A departure entry whose single occupancy section holds no indicator
element, so the classification counts cannot reach `total_sections`. -/
def itemOneSecNoDots : Item :=
  { destination := some "Newark Penn Station", line := some "NEC",
    trainText := some "Train 3854", timeElement := some "12:45 PM",
    statusElement := some "On Time", trackText := some "Track 1",
    occupancy_section := some [⟨[]⟩] }

/-- A concrete record for exercising `save_to_csv`. -/
def sampleRecord : DepartureRecord :=
  { timestamp := "2025-06-15 12:00:00", station := "Newark",
    destination := "Newark Penn Station", line := "NEC",
    train_number := "3850", departure_time := "10:45 AM",
    status := "On Time", track := "2", car_sections := 1,
    occupancy_light := 1, occupancy_medium := 0, occupancy_heavy := 0,
    occupancy_no_data := 0 }

/-- A second concrete record for the two-run append example. -/
def sampleRecord2 : DepartureRecord :=
  { timestamp := "2025-06-15 18:30:00", station := "Maplewood",
    destination := "Hoboken", line := "MOBO", train_number := "6212",
    departure_time := "6:40 PM", status := "All Aboard", track := "5",
    car_sections := 2, occupancy_light := 0, occupancy_medium := 1,
    occupancy_heavy := 0, occupancy_no_data := 1 }

/-- Sum of the four classification counts of an occupancy summary. -/
def sumCounts (o : OccupancyInfo) : Nat :=
  o.light + o.medium + o.heavy + o.no_data

/-- Total number of indicator elements across all occupancy sections of an
entry. -/
def totalDots (item : Item) : Nat :=
  match item.occupancy_section with
  | none => 0
  | some sections => (sections.map fun s => s.dots.length).sum

/-- Number of occupancy section elements of an entry. -/
def numSections (item : Item) : Nat :=
  match item.occupancy_section with
  | none => 0
  | some sections => sections.length

theorem sumCounts_classifyStep (acc : OccupancyInfo) (d : Dot) :
    sumCounts (classifyStep acc d) = sumCounts acc + 1 := by
  unfold classifyStep sumCounts
  split_ifs <;> simp <;> omega

theorem total_sections_classifyStep (acc : OccupancyInfo) (d : Dot) :
    (classifyStep acc d).total_sections = acc.total_sections := by
  unfold classifyStep
  split_ifs <;> rfl

theorem sumCounts_dots_foldl (dots : List Dot) (acc : OccupancyInfo) :
    sumCounts (dots.foldl classifyStep acc) = sumCounts acc + dots.length := by
  induction dots generalizing acc with
  | nil => simp
  | cons d ds ih =>
    rw [List.foldl_cons, ih, sumCounts_classifyStep, List.length_cons]
    omega

theorem total_sections_dots_foldl (dots : List Dot) (acc : OccupancyInfo) :
    (dots.foldl classifyStep acc).total_sections = acc.total_sections := by
  induction dots generalizing acc with
  | nil => rfl
  | cons d ds ih => rw [List.foldl_cons, ih, total_sections_classifyStep]

theorem sumCounts_sections_foldl (ss : List OccSection) (acc : OccupancyInfo) :
    sumCounts (ss.foldl (fun acc sec => sec.dots.foldl classifyStep acc) acc)
      = sumCounts acc + (ss.map fun s => s.dots.length).sum := by
  induction ss generalizing acc with
  | nil => simp
  | cons s ss ih =>
    rw [List.foldl_cons, ih, sumCounts_dots_foldl]
    simp
    omega

theorem total_sections_sections_foldl (ss : List OccSection) (acc : OccupancyInfo) :
    (ss.foldl (fun acc sec => sec.dots.foldl classifyStep acc) acc).total_sections
      = acc.total_sections := by
  induction ss generalizing acc with
  | nil => rfl
  | cons s ss ih => rw [List.foldl_cons, ih, total_sections_dots_foldl]

theorem sumCounts_parse_occupancy (item : Item) :
    sumCounts (parse_occupancy item) = totalDots item := by
  unfold parse_occupancy totalDots
  cases item.occupancy_section with
  | none => rfl
  | some ss => rw [sumCounts_sections_foldl]; simp [sumCounts]

theorem total_sections_parse_occupancy (item : Item) :
    (parse_occupancy item).total_sections = numSections item := by
  unfold parse_occupancy numSections
  cases item.occupancy_section with
  | none => rfl
  | some ss => rw [total_sections_sections_foldl]

theorem sum_map_all_one {α : Type} (f : α → Nat) :
    ∀ l : List α, (∀ x ∈ l, f x = 1) → (l.map f).sum = l.length := by
  intro l
  induction l with
  | nil => intro _; rfl
  | cons x xs ih =>
    intro h
    rw [List.map_cons, List.sum_cons, h x (by simp), ih fun y hy => h y (by simp [hy])]
    simp [Nat.add_comm]

theorem process_item_record_inv (filt : Option String) (st ts : String)
    (item : Item) (r : DepartureRecord)
    (h : process_item filt st ts item = EntryResult.record r) :
    r.car_sections = (parse_occupancy item).total_sections ∧
    r.occupancy_light = (parse_occupancy item).light ∧
    r.occupancy_medium = (parse_occupancy item).medium ∧
    r.occupancy_heavy = (parse_occupancy item).heavy ∧
    r.occupancy_no_data = (parse_occupancy item).no_data := by
  obtain ⟨dst, lin, tt, te, se, tr, occ⟩ := item
  cases dst with
  | none => simp [process_item] at h
  | some destText =>
    cases lin with
    | none =>
      simp only [process_item] at h
      split at h <;> exact absurd h (by simp)
    | some lineText =>
      simp only [process_item] at h
      split at h
      · exact absurd h (by simp)
      · injection h with h
        subst h
        simp [buildRecord]

theorem keepRecord_eq_some (e : EntryResult) (r : DepartureRecord)
    (h : keepRecord e = some r) : e = EntryResult.record r := by
  cases e with
  | errored => exact absurd h (by simp [keepRecord])
  | filtered => exact absurd h (by simp [keepRecord])
  | record a => simp [keepRecord] at h; rw [h]

/-- C10: inside `parse_occupancy` every indicator element found in the
occupancy sections is classified into exactly one of the four count buckets,
so the four counts sum to the total number of indicator elements across all
sections. -/
theorem parse_occupancy_counts_sum_eq_totalDots (item : Item) :
    (parse_occupancy item).light + (parse_occupancy item).medium +
      (parse_occupancy item).heavy + (parse_occupancy item).no_data
      = totalDots item := by
  have h := sumCounts_parse_occupancy item
  unfold sumCounts at h
  exact h

/-- C8: `save_to_csv` applied to an empty record list performs no I/O at
all — the filesystem value is returned unchanged. -/
theorem save_to_csv_empty_noop (t : LocalTime) (fs : FileSys) :
    save_to_csv t [] fs = fs := rfl

theorem process_item_empty_filter (st ts : String) (item : Item) :
    process_item (some "") st ts item = process_item none st ts item := rfl

/-- C9: an empty-string destination filter is falsy in the guard
`if self.destination_filter and ...`, so it disables filtering exactly like
an absent filter. -/
theorem scrape_departures_empty_filter (fetched : Except String Page)
    (st ts : String) :
    scrape_departures (some "") fetched st ts
      = scrape_departures none fetched st ts := by
  unfold scrape_departures
  cases fetched with
  | error _ => rfl
  | ok page => simp only [process_item_empty_filter]

/-- C3: `scrape_departures` never propagates an exception: a failed page
fetch yields the empty list, and an entry whose extraction raises is skipped
while the sibling entries before and after it are still processed. -/
theorem scrape_departures_error_isolation :
    (∀ (filt : Option String) (st ts msg : String),
      scrape_departures filt (Except.error msg) st ts = []) ∧
    (∀ (filt : Option String) (st ts : String) (pre : List Item) (bad : Item)
      (post : List Item),
      process_item filt st ts bad = EntryResult.errored →
      scrape_departures filt (Except.ok ⟨pre ++ bad :: post⟩) st ts =
        scrape_departures filt (Except.ok ⟨pre⟩) st ts ++
          scrape_departures filt (Except.ok ⟨post⟩) st ts) := by
  constructor
  · intro filt st ts msg
    rfl
  · intro filt st ts pre bad post h
    simp only [scrape_departures, List.filterMap_append, List.filterMap_cons, h,
      keepRecord]

/-- Witness for C3 at concrete inputs: a fetch error yields `[]`, and a page
whose middle entry lacks the destination element yields exactly the records
of the two well-formed sibling entries. -/
theorem scrape_departures_error_isolation_witness :
    scrape_departures none (Except.error "boom") "Newark" "ts" = [] ∧
    scrape_departures none (Except.ok ⟨[itemNewark, itemNoDest, itemHoboken]⟩)
        "Newark" "ts" =
      scrape_departures none (Except.ok ⟨[itemNewark]⟩) "Newark" "ts" ++
        scrape_departures none (Except.ok ⟨[itemHoboken]⟩) "Newark" "ts" :=
  ⟨scrape_departures_error_isolation.1 none "Newark" "ts" "boom",
   scrape_departures_error_isolation.2 none "Newark" "ts" [itemNewark]
     itemNoDest [itemHoboken] (by decide)⟩

/-- C1 counterexample: a concrete page whose single entry has one occupancy
section containing no indicator element yields a record with
`car_sections = 1` but all four classification counts zero, refuting the
claimed invariant for records produced by the pipeline. -/
theorem record_counts_sum_counterexample :
    ¬ ∀ r ∈ scrape_departures none (Except.ok ⟨[itemOneSecNoDots]⟩) "Newark"
        "2025-06-15 12:00:00",
      r.occupancy_light + r.occupancy_medium + r.occupancy_heavy +
        r.occupancy_no_data = r.car_sections := by
  decide

/-- C1 (amended): every record produced by `scrape_departures` comes from a
source entry of the page whose indicator elements the four occupancy counts
sum to, while `car_sections` is that entry's section count; consequently,
when every occupancy section of that source entry contains exactly one
indicator element, the four counts sum to `car_sections`. -/
theorem record_counts_sum_eq_totalDots_of_source_entry
    (filt : Option String) (st ts : String) (page : Page)
    (r : DepartureRecord)
    (hr : r ∈ scrape_departures filt (Except.ok page) st ts) :
    ∃ item, item ∈ page.entries ∧
      r.occupancy_light + r.occupancy_medium + r.occupancy_heavy +
        r.occupancy_no_data = totalDots item ∧
      r.car_sections = numSections item ∧
      ((∀ s ∈ item.occupancy_section.getD [], s.dots.length = 1) →
        r.occupancy_light + r.occupancy_medium + r.occupancy_heavy +
          r.occupancy_no_data = r.car_sections) := by
  simp only [scrape_departures] at hr
  obtain ⟨item, hmem, hkeep⟩ := List.mem_filterMap.mp hr
  have hproc := keepRecord_eq_some _ _ hkeep
  obtain ⟨hc, hl, hm, hh, hn⟩ := process_item_record_inv filt st ts item r hproc
  have hsum := sumCounts_parse_occupancy item
  unfold sumCounts at hsum
  refine ⟨item, hmem, ?_, ?_, ?_⟩
  · rw [hl, hm, hh, hn]
    exact hsum
  · rw [hc]
    exact total_sections_parse_occupancy item
  · intro hone
    rw [hl, hm, hh, hn, hc, hsum, total_sections_parse_occupancy]
    unfold totalDots numSections
    cases hos : item.occupancy_section with
    | none => rfl
    | some ss =>
      rw [hos] at hone
      simp only [Option.getD_some] at hone
      exact sum_map_all_one _ ss hone

/-- Witness for the amended C1: the record produced from the single-entry
page `itemNewark` traces back to that entry, whose one section holds one
indicator, so the counts sum to its dot count and to `car_sections`. -/
theorem record_counts_sum_source_entry_witness :
    ∃ item, item ∈ (⟨[itemNewark]⟩ : Page).entries ∧
      sampleRecord.occupancy_light + sampleRecord.occupancy_medium +
        sampleRecord.occupancy_heavy + sampleRecord.occupancy_no_data
        = totalDots item ∧
      sampleRecord.car_sections = numSections item ∧
      ((∀ s ∈ item.occupancy_section.getD [], s.dots.length = 1) →
        sampleRecord.occupancy_light + sampleRecord.occupancy_medium +
          sampleRecord.occupancy_heavy + sampleRecord.occupancy_no_data
          = sampleRecord.car_sections) :=
  record_counts_sum_eq_totalDots_of_source_entry none "Newark"
    "2025-06-15 12:00:00" ⟨[itemNewark]⟩ sampleRecord (by decide)

/-- C5: with a configured non-empty destination filter, an entry whose
destination is present is kept exactly when the lowercased filter is a
substring of its lowercased (stripped) destination text; rejected entries are
dropped by the `continue` before any further field extraction. -/
theorem destination_filter_retains_iff (f st ts d : String) (item : Item)
    (hf : f ≠ "") (hd : item.destination = some d) :
    (pyIn (pyLower f) (pyLower (pyStrip d)) = false →
      process_item (some f) st ts item = EntryResult.filtered) ∧
    (∀ l, pyIn (pyLower f) (pyLower (pyStrip d)) = true →
      item.line = some l →
      process_item (some f) st ts item =
        EntryResult.record (buildRecord st ts item (pyStrip d) (pyStrip l))) := by
  have hft : filtTruthy (some f) = true := by
    simp [filtTruthy, hf]
  constructor
  · intro hno
    simp only [process_item, hd]
    simp [hft, hno]
  · intro l hyes hl
    simp only [process_item, hd, hl]
    simp [hft, hyes]

/-- Witness for C5: filter `"Newark"` excludes the Hoboken-bound entry, and
filter `"newark"` retains the entry bound for Newark Penn Station. -/
theorem destination_filter_retains_iff_witness :
    process_item (some "Newark") "S" "T" itemHoboken = EntryResult.filtered ∧
    process_item (some "newark") "S" "T" itemNewark =
      EntryResult.record (buildRecord "S" "T" itemNewark
        (pyStrip "Newark Penn Station") (pyStrip "NEC")) :=
  ⟨(destination_filter_retains_iff "Newark" "S" "T" "Hoboken" itemHoboken
      (by decide) rfl).1 (by decide),
   (destination_filter_retains_iff "newark" "S" "T" "Newark Penn Station"
      itemNewark (by decide) rfl).2 "NEC" (by decide) rfl⟩

/-- C7: an entry without the occupancy list structure gets the zero-filled
summary from `parse_occupancy` (not an error), and such an entry is still
assembled into a record by `scrape_departures`. -/
theorem no_occupancy_zero_summary_still_recorded (st ts d l : String)
    (item : Item) (page : Page) (hocc : item.occupancy_section = none) :
    parse_occupancy item = ⟨0, 0, 0, 0, 0⟩ ∧
    (item.destination = some d → item.line = some l → item ∈ page.entries →
      ∃ r, r ∈ scrape_departures none (Except.ok page) st ts ∧
        r.car_sections = 0 ∧ r.occupancy_light = 0 ∧ r.occupancy_medium = 0 ∧
        r.occupancy_heavy = 0 ∧ r.occupancy_no_data = 0 ∧
        r.destination = pyStrip d) := by
  have hz : parse_occupancy item = ⟨0, 0, 0, 0, 0⟩ := by
    unfold parse_occupancy
    rw [hocc]
  refine ⟨hz, fun hd hl hmem => ?_⟩
  have hproc : process_item none st ts item =
      EntryResult.record (buildRecord st ts item (pyStrip d) (pyStrip l)) := by
    simp only [process_item, hd, hl]
    simp [filtTruthy]
  refine ⟨buildRecord st ts item (pyStrip d) (pyStrip l), ?_, ?_⟩
  · simp only [scrape_departures]
    exact List.mem_filterMap.mpr ⟨item, hmem, by rw [hproc]; rfl⟩
  · simp [buildRecord, hz]

/-- Witness for C7: the occupancy-free entry `itemNoOcc` yields the zero
summary and still appears as a record of the scrape. -/
theorem no_occupancy_zero_summary_witness :
    parse_occupancy itemNoOcc = ⟨0, 0, 0, 0, 0⟩ ∧
    ∃ r, r ∈ scrape_departures none (Except.ok ⟨[itemNoOcc]⟩) "Newark" "ts" ∧
      r.car_sections = 0 ∧ r.occupancy_light = 0 ∧ r.occupancy_medium = 0 ∧
      r.occupancy_heavy = 0 ∧ r.occupancy_no_data = 0 ∧
      r.destination = pyStrip "Newark Penn Station" :=
  have h := no_occupancy_zero_summary_still_recorded "Newark" "ts"
    "Newark Penn Station" "NEC" itemNoOcc ⟨[itemNoOcc]⟩ rfl
  ⟨h.1, h.2 rfl rfl (by decide)⟩

theorem splitLast_of_not_mem (sep : Char) (l : List Char) (h : sep ∉ l) :
    splitLast sep l = none := by
  induction l with
  | nil => rfl
  | cons c cs ih =>
    have hc : ¬ c = sep := fun hc => h (by simp [hc])
    have hcs : sep ∉ cs := fun hm => h (by simp [hm])
    simp [splitLast, ih hcs, hc]

theorem splitLast_append_sep (sep : Char) (a b : List Char) (hb : sep ∉ b) :
    splitLast sep (a ++ sep :: b) = some (a, b) := by
  induction a with
  | nil => simp [splitLast, splitLast_of_not_mem sep b hb]
  | cons c cs ih => simp [splitLast, ih]

theorem digitChar_ne_slash : ∀ n : Nat, digitChar n ≠ '/'
  | 0 => by decide
  | 1 => by decide
  | 2 => by decide
  | 3 => by decide
  | 4 => by decide
  | 5 => by decide
  | 6 => by decide
  | 7 => by decide
  | 8 => by decide
  | 9 => by decide
  | _ + 10 => by
    show ('*' : Char) ≠ '/'
    decide

theorem slash_not_mem_natDigitsAux (fuel : Nat) :
    ∀ (n : Nat) (acc : List Char), '/' ∉ acc →
      '/' ∉ natDigitsAux fuel n acc := by
  induction fuel with
  | zero => intro n acc h; exact h
  | succ fuel ih =>
    intro n acc h
    simp only [natDigitsAux]
    split
    · intro hm
      rcases List.mem_cons.mp hm with hm | hm
      · exact digitChar_ne_slash n hm.symm
      · exact h hm
    · refine ih _ _ ?_
      intro hm
      rcases List.mem_cons.mp hm with hm | hm
      · exact digitChar_ne_slash (n % 10) hm.symm
      · exact h hm

theorem slash_not_mem_natStr (n : Nat) : '/' ∉ (natStr n).data :=
  slash_not_mem_natDigitsAux (n + 1) n [] (by simp)

theorem slash_not_mem_pad2 (n : Nat) : '/' ∉ (pad2 n).data := by
  unfold pad2
  split
  · intro hm
    rw [String.data_append] at hm
    rcases List.mem_append.mp hm with hm | hm
    · simp at hm
    · exact slash_not_mem_natStr n hm
  · exact slash_not_mem_natStr n

theorem slash_not_mem_pad4 (n : Nat) : '/' ∉ (pad4 n).data := by
  unfold pad4
  split
  · intro hm
    rw [String.data_append] at hm
    rcases List.mem_append.mp hm with hm | hm
    · simp at hm
    · exact slash_not_mem_natStr n hm
  · split
    · intro hm
      rw [String.data_append] at hm
      rcases List.mem_append.mp hm with hm | hm
      · simp at hm
      · exact slash_not_mem_natStr n hm
    · split
      · intro hm
        rw [String.data_append] at hm
        rcases List.mem_append.mp hm with hm | hm
        · simp at hm
        · exact slash_not_mem_natStr n hm
      · exact slash_not_mem_natStr n

theorem slash_not_mem_formatDate (d : Date) : '/' ∉ (formatDate d).data := by
  unfold formatDate
  intro hm
  simp only [String.data_append] at hm
  rcases List.mem_append.mp hm with hm | hm
  · rcases List.mem_append.mp hm with hm | hm
    · rcases List.mem_append.mp hm with hm | hm
      · rcases List.mem_append.mp hm with hm | hm
        · exact slash_not_mem_pad4 d.year hm
        · simp at hm
      · exact slash_not_mem_pad2 d.month hm
    · simp at hm
  · exact slash_not_mem_pad2 d.day hm

theorem pyPathJoin_departures (s : String) :
    pyPathJoin "departures" s = "departures" ++ "/" ++ s := rfl

theorem pyDirname_departures (s : String) (h : '/' ∉ s.data) :
    pyDirname ("departures" ++ "/" ++ s) = "departures" := by
  unfold pyDirname
  have hl : ("departures" ++ "/" ++ s).toList = "departures".data ++ '/' :: s.data := by
    simp [String.toList, String.data_append]
  rw [hl, splitLast_append_sep '/' _ _ h]

theorem pyBasename_departures (s : String) (h : '/' ∉ s.data) :
    pyBasename ("departures" ++ "/" ++ s) = s := by
  unfold pyBasename
  have hl : ("departures" ++ "/" ++ s).toList = "departures".data ++ '/' :: s.data := by
    simp [String.toList, String.data_append]
  rw [hl, splitLast_append_sep '/' _ _ h]

theorem save_filename_shape (t : LocalTime) :
    save_filename t =
      "departures/departures_" ++ formatDate (serviceDate t) ++ ".csv" := by
  simp only [save_filename]
  rw [show get_current_file_date t
        = pyPathJoin "departures" (formatDate (serviceDate t)) from rfl]
  rw [pyPathJoin_departures,
    pyDirname_departures _ (slash_not_mem_formatDate _),
    pyBasename_departures _ (slash_not_mem_formatDate _),
    pyPathJoin_departures]
  rw [show ("departures" : String) ++ "/" = "departures/" from by decide]
  rw [← String.append_assoc "departures/"
    ("departures_" ++ formatDate (serviceDate t)) ".csv"]
  rw [← String.append_assoc "departures/" "departures_"
    (formatDate (serviceDate t))]
  rw [show ("departures/" : String) ++ "departures_"
        = "departures/departures_" from by decide]

theorem files_mkdirs (d : String) (fs : FileSys) :
    (mkdirs d fs).files = fs.files := by
  unfold mkdirs
  split <;> rfl

theorem lookupFile_mkdirs (d : String) (fs : FileSys) (p : String) :
    lookupFile (mkdirs d fs) p = lookupFile fs p := by
  unfold lookupFile
  rw [files_mkdirs]

theorem lookupFile_writeFile_self (p : String) (c : List Row) (fs : FileSys) :
    lookupFile (writeFile p c fs) p = some c := by
  simp [lookupFile, writeFile, List.find?]

theorem list_isEmpty_false {α : Type} (l : List α) (h : l ≠ []) :
    l.isEmpty = false := by
  cases l with
  | nil => exact absurd rfl h
  | cons a as => rfl

theorem save_to_csv_eq (t : LocalTime) (rs : List DepartureRecord)
    (fs : FileSys) (hne : rs.isEmpty = false) :
    save_to_csv t rs fs =
      match lookupFile fs (save_filename t) with
      | some content => writeFile (save_filename t) (content ++ rs.map recordRow)
          (mkdirs (pyDirname (get_current_file_date t)) fs)
      | none => writeFile (save_filename t) (headerRow :: rs.map recordRow)
          (mkdirs (pyDirname (get_current_file_date t)) fs) := by
  unfold save_to_csv
  rw [hne]
  simp only [Bool.false_eq_true, if_false, lookupFile_mkdirs]
  rfl

/-- C2 counterexample: running the writer at 2025-06-15 12:00 with one record
on an empty filesystem leaves nothing at
`departures/2025-06-15/departures_2025-06-15.csv` — the file is created at
`departures/departures_2025-06-15.csv` instead, because `save_to_csv` takes
`os.path.dirname` of `departures/2025-06-15`, which is just `departures`. -/
theorem save_path_counterexample :
    lookupFile (save_to_csv ⟨2025, 6, 15, 12, 0⟩ [sampleRecord] ⟨[], []⟩)
        "departures/2025-06-15/departures_2025-06-15.csv" = none ∧
    lookupFile (save_to_csv ⟨2025, 6, 15, 12, 0⟩ [sampleRecord] ⟨[], []⟩)
        "departures/departures_2025-06-15.csv"
      = some [headerRow, recordRow sampleRecord] := by
  decide

/-- C2 (amended): for every non-empty run, `save_to_csv` writes the records
to the file at `departures/departures_<YYYY-MM-DD>.csv` (a flat `departures`
directory, not a per-day subdirectory), where `<YYYY-MM-DD>` is the current
service-day bucket date. -/
theorem save_to_csv_writes_flat_path (t : LocalTime)
    (rs : List DepartureRecord) (fs : FileSys) (hne : rs ≠ []) :
    save_filename t =
      "departures/departures_" ++ formatDate (serviceDate t) ++ ".csv" ∧
    (lookupFile (save_to_csv t rs fs) (save_filename t)).isSome = true := by
  refine ⟨save_filename_shape t, ?_⟩
  rw [save_to_csv_eq t rs fs (list_isEmpty_false rs hne)]
  cases h : lookupFile fs (save_filename t) with
  | none => simp [lookupFile_writeFile_self]
  | some c => simp [lookupFile_writeFile_self]

/-- Witness for the amended C2 at a concrete moment and filesystem. -/
theorem save_to_csv_writes_flat_path_witness :
    save_filename ⟨2025, 6, 15, 12, 0⟩ =
      "departures/departures_" ++
        formatDate (serviceDate ⟨2025, 6, 15, 12, 0⟩) ++ ".csv" ∧
    (lookupFile (save_to_csv ⟨2025, 6, 15, 12, 0⟩ [sampleRecord] ⟨[], []⟩)
        (save_filename ⟨2025, 6, 15, 12, 0⟩)).isSome = true :=
  save_to_csv_writes_flat_path ⟨2025, 6, 15, 12, 0⟩ [sampleRecord] ⟨[], []⟩
    (by decide)

/-- C6: within one service-day bucket, the first write creates the file with
exactly one header row followed by the run's rows, and a second write in the
same bucket appends its rows after them without re-emitting the header; the
header occurs exactly once provided no data row coincides with it. -/
theorem save_to_csv_header_once (t1 t2 : LocalTime)
    (rs1 rs2 : List DepartureRecord) (fs0 : FileSys)
    (h1 : rs1 ≠ []) (h2 : rs2 ≠ [])
    (hfresh : lookupFile fs0 (save_filename t1) = none)
    (hsame : get_current_file_date t1 = get_current_file_date t2) :
    lookupFile (save_to_csv t1 rs1 fs0) (save_filename t1)
      = some (headerRow :: rs1.map recordRow) ∧
    lookupFile (save_to_csv t2 rs2 (save_to_csv t1 rs1 fs0)) (save_filename t1)
      = some (headerRow :: (rs1.map recordRow ++ rs2.map recordRow)) ∧
    ((∀ r, (r ∈ rs1 ∨ r ∈ rs2) → recordRow r ≠ headerRow) →
      (headerRow :: (rs1.map recordRow ++ rs2.map recordRow)).count headerRow
        = 1) := by
  have hfn : save_filename t2 = save_filename t1 := by
    unfold save_filename
    rw [hsame]
  have hfirst : save_to_csv t1 rs1 fs0
      = writeFile (save_filename t1) (headerRow :: rs1.map recordRow)
          (mkdirs (pyDirname (get_current_file_date t1)) fs0) := by
    rw [save_to_csv_eq t1 rs1 fs0 (list_isEmpty_false rs1 h1), hfresh]
  have hlook1 : lookupFile (save_to_csv t1 rs1 fs0) (save_filename t1)
      = some (headerRow :: rs1.map recordRow) := by
    rw [hfirst, lookupFile_writeFile_self]
  refine ⟨hlook1, ?_, ?_⟩
  · rw [save_to_csv_eq t2 rs2 _ (list_isEmpty_false rs2 h2), hfn, hlook1]
    rw [lookupFile_writeFile_self]
    simp
  · intro hnh
    have hno : headerRow ∉ rs1.map recordRow ++ rs2.map recordRow := by
      intro hm
      rcases List.mem_append.mp hm with hm | hm <;>
        rcases List.mem_map.mp hm with ⟨r, hr, he⟩
      · exact hnh r (Or.inl hr) he
      · exact hnh r (Or.inr hr) he
    rw [List.count_cons_self, List.count_eq_zero.mpr hno]

/-- Witness for C6: two one-record runs at the same concrete moment on an
empty filesystem. -/
theorem save_to_csv_header_once_witness :
    lookupFile (save_to_csv ⟨2025, 6, 15, 12, 0⟩ [sampleRecord] ⟨[], []⟩)
        (save_filename ⟨2025, 6, 15, 12, 0⟩)
      = some (headerRow :: [sampleRecord].map recordRow) ∧
    lookupFile
        (save_to_csv ⟨2025, 6, 15, 18, 30⟩ [sampleRecord2]
          (save_to_csv ⟨2025, 6, 15, 12, 0⟩ [sampleRecord] ⟨[], []⟩))
        (save_filename ⟨2025, 6, 15, 12, 0⟩)
      = some (headerRow ::
          ([sampleRecord].map recordRow ++ [sampleRecord2].map recordRow)) :=
  have h := save_to_csv_header_once ⟨2025, 6, 15, 12, 0⟩ ⟨2025, 6, 15, 18, 30⟩
    [sampleRecord] [sampleRecord2] ⟨[], []⟩ (by decide) (by decide)
    (by decide) (by decide)
  ⟨h.1, h.2.1⟩

theorem daysBeforeMonth_step (y m : Nat) (hm : 2 ≤ m) :
    daysBeforeMonth y m = daysBeforeMonth y (m - 1) + daysInMonth y (m - 1) := by
  obtain ⟨k, rfl⟩ : ∃ k, m = k + 2 := ⟨m - 2, by omega⟩
  rfl

theorem daysBeforeMonth_twelve (y : Nat) :
    daysBeforeMonth y 12 = 334 + (if isLeap y then 1 else 0) := by
  cases hl : isLeap y <;> simp [daysBeforeMonth, daysInMonth, hl]

theorem daysBeforeYear_step (y : Nat) (hy : 2 ≤ y) :
    daysBeforeYear y
      = daysBeforeYear (y - 1) + 365 + (if isLeap (y - 1) then 1 else 0) := by
  unfold daysBeforeYear leapCount
  cases hl : isLeap (y - 1) with
  | false =>
    unfold isLeap at hl
    simp only [Bool.or_eq_false_iff, Bool.and_eq_false_iff,
      decide_eq_false_iff_not, Bool.not_eq_false', decide_eq_true_eq] at hl
    simp only [Bool.false_eq_true, if_false]
    omega
  | true =>
    unfold isLeap at hl
    simp only [Bool.or_eq_true, Bool.and_eq_true, decide_eq_true_eq,
      Bool.not_eq_true', decide_eq_false_iff_not] at hl
    simp only [if_true]
    omega

theorem toDayNo_subOneDay (d : Date) (hv : validDate d) (hy : 2 ≤ d.year) :
    toDayNo (subOneDay d) + 1 = toDayNo d := by
  obtain ⟨y, m, day⟩ := d
  obtain ⟨hy1, hm1, hm12, hd1, hdm⟩ := hv
  simp only at hy1 hm1 hm12 hd1 hdm hy
  by_cases h1 : 1 < day
  · unfold subOneDay toDayNo
    rw [if_pos h1]
    simp only
    omega
  · by_cases hm : 1 < m
    · unfold subOneDay toDayNo
      rw [if_neg h1, if_pos hm]
      simp only
      have hstep := daysBeforeMonth_step y m (by omega)
      omega
    · have hmeq : m = 1 := by omega
      have hdeq : day = 1 := by omega
      subst hmeq hdeq
      unfold subOneDay toDayNo
      rw [if_neg h1, if_neg hm]
      simp only
      have h12 := daysBeforeMonth_twelve (y - 1)
      have hYstep := daysBeforeYear_step y hy
      have hone : daysBeforeMonth y 1 = 0 := rfl
      have htwelve : daysBeforeMonth (y - 1) 12 + 31
          = 365 + (if isLeap (y - 1) then 1 else 0) := by
        rw [h12]
        cases isLeap (y - 1) <;> simp
      omega

/-- C4: the service-day bucket of `get_current_file_date` is the previous
calendar date exactly when the local hour is strictly before 04:00 (so 03:59
still belongs to the previous day and 04:00 already to the current one);
`subOneDay` really is the previous calendar date, as its absolute day number
is one less. -/
theorem service_day_bucket (t : LocalTime) (hv : validDate t.date)
    (hy : 2 ≤ t.year) :
    (t.hour < 4 →
      get_current_file_date t
        = pyPathJoin "departures" (formatDate (subOneDay t.date)) ∧
      toDayNo (subOneDay t.date) + 1 = toDayNo t.date) ∧
    (4 ≤ t.hour →
      get_current_file_date t
        = pyPathJoin "departures" (formatDate t.date)) := by
  constructor
  · intro h4
    constructor
    · simp only [get_current_file_date]
      rw [if_pos h4]
    · exact toDayNo_subOneDay t.date hv hy
  · intro h4
    simp only [get_current_file_date]
    rw [if_neg (by omega)]

/-- Witness for C4: at 03:59 on 2025-01-01 the bucket is 2024-12-31 (also
one day earlier in absolute day number); at 04:00 the same date it is
2025-01-01. -/
theorem service_day_bucket_witness :
    (get_current_file_date ⟨2025, 1, 1, 3, 59⟩ = "departures/2024-12-31" ∧
      toDayNo (subOneDay ⟨2025, 1, 1⟩) + 1 = toDayNo ⟨2025, 1, 1⟩) ∧
    get_current_file_date ⟨2025, 1, 1, 4, 0⟩ = "departures/2025-01-01" :=
  have hA := (service_day_bucket ⟨2025, 1, 1, 3, 59⟩ (by constructor <;> decide)
    (by decide)).1 (by decide)
  have hB := (service_day_bucket ⟨2025, 1, 1, 4, 0⟩ (by constructor <;> decide)
    (by decide)).2 (by decide)
  ⟨⟨hA.1.trans (by decide), hA.2⟩, hB.trans (by decide)⟩

end NJT
